import Mathlib

/-!
Shallow embedding of `blindpandas/neosynth` (src/src/lib.rs).

The repository wraps the Windows OneCore speech synthesizer and the Windows
`MediaPlayer` behind a queue-draining mixer.  The external Windows engines
(synthesis results, storage-file lookups, and the playback state the player
assumes after a `SetSource` call) are modelled by an `Env` record of oracles;
everything the repository's own code does — queue handling, the dispatch
protocol, the facade operations — is translated function by function from the
source.  Each synchronous call into the mixer returns an `Outcome`: the
`NeosynthResult` it produces, the successor state, and the ordered list of
observable effects (event-sink calls, playback-adapter calls, synthesis
requests) it performed.
-/

/-- Mirrors `enum NeosynthError` (lib.rs lines 17-21): a Windows runtime error
with message and native code, or a locally detected operation error. -/
inductive NeosynthError
  | RuntimeError (msg : String) (code : Int)
  | OperationError (msg : String)
deriving DecidableEq

/-- Mirrors `NeosynthResult<T> = Result<T, NeosynthError>` (lib.rs line 14). -/
inductive NeosynthResult (α : Type)
  | ok (value : α)
  | err (error : NeosynthError)
deriving DecidableEq

/-- Mirrors `enum SynthState` (lib.rs lines 50-56). -/
inductive SynthState
  | Ready
  | Busy
  | Paused
deriving DecidableEq

/-- Playback states of the external `MediaPlayer` session, the domain of the
`From<MediaPlaybackState>` conversion in lib.rs lines 64-74. -/
inductive MediaPlaybackState
  | None
  | Opening
  | Buffering
  | Playing
  | Paused
deriving DecidableEq

/-- Mirrors `impl From<MediaPlaybackState> for SynthState` (lib.rs lines
64-74): Buffering/Opening/Playing map to Busy, Paused to Paused, and the
catch-all arm maps everything else to Ready. -/
def SynthState.fromPlaybackState : MediaPlaybackState → SynthState
  | .Buffering | .Opening | .Playing => .Busy
  | .Paused => .Paused
  | _ => .Ready

/-- Mirrors `enum SpeechElement` (lib.rs lines 76-82). -/
inductive SpeechElement
  | Text (s : String)
  | Ssml (s : String)
  | Bookmark (s : String)
  | Audio (s : String)
deriving DecidableEq

/-- Audio streams handed from the synthesizer to the player.  `synthesized`
tags a stream produced by the external engine; `inMemoryEmpty` models the
fresh `InMemoryRandomAccessStream::new()` that `stop` substitutes
(lib.rs line 474). -/
inductive AudioStream
  | synthesized (data : String)
  | inMemoryEmpty
deriving DecidableEq

/-- A storage-file handle as returned by `StorageFile::GetFileFromPathAsync`
(lib.rs line 250). -/
structure StorageFile where
  path : String
deriving DecidableEq

/-- A media source as accepted by `MediaPlayer::SetSource`: created from a
stream (lib.rs lines 216, 475) or from a storage file (lib.rs line 252). -/
inductive MediaSource
  | fromStream (stream : AudioStream)
  | fromStorageFile (file : StorageFile)
deriving DecidableEq

/-- Observable effects of one synchronous call into the mixer, recorded in
execution order: calls on the event sink (`stateChanged`, `bookmarkReached`),
the synthesis request issued to the speech engine (`synthesize`, recorded
whether or not the engine succeeds), calls on the playback adapter
(`setSource`, `playerPause`), and the queue-discarding loop of `stop`
(`queueDrained`). -/
inductive Event
  | stateChanged (s : SynthState)
  | bookmarkReached (label : String)
  | synthesize (text : String) (isSsml : Bool)
  | setSource (src : MediaSource)
  | playerPause
  | queueDrained
deriving DecidableEq

/-- Behaviour of the external Windows engines, which are out of scope for the
repository: `synth text isSsml` is the result of
`SynthesizeTextToStreamAsync`/`SynthesizeSsmlToStreamAsync`, `getFile` the
result of `StorageFile::GetFileFromPathAsync`, and `postSetSource` /
`postSetEmpty` the playback state the auto-playing player assumes right after
`SetSource` is called with a speech/file source resp. with the empty stream
substituted by `stop`. -/
structure Env where
  synth : String → Bool → NeosynthResult AudioStream
  getFile : String → NeosynthResult StorageFile
  postSetSource : MediaPlaybackState
  postSetEmpty : MediaPlaybackState

/-- State of a `SpeechMixer` (lib.rs lines 187-195): the live playback state
of its `MediaPlayer` and the FIFO `speech_queue` (head = next element to pop;
`SegQueue::push` appends at the tail). -/
structure SpeechMixerState where
  playerState : MediaPlaybackState
  speech_queue : List SpeechElement
deriving DecidableEq

/-- Result of one synchronous call into the mixer: the returned
`NeosynthResult`, the successor state, and the effects in execution order. -/
structure Outcome where
  result : NeosynthResult Unit
  state : SpeechMixerState
  events : List Event
deriving DecidableEq

/-- Mirrors `SpeechMixer::get_state` (lib.rs lines 210-212): the `SynthState`
is a pure projection of the player's live playback state.  The Windows
property reads themselves are modelled as infallible. -/
def SpeechMixer.get_state (st : SpeechMixerState) : SynthState :=
  SynthState.fromPlaybackState st.playerState

/-- Mirrors `SpeechMixer::generate_speech_stream` (lib.rs lines 223-238):
delegate to the external engine, propagating its error unchanged. -/
def SpeechMixer.generate_speech_stream (env : Env) (text : String)
    (isSsml : Bool) : NeosynthResult AudioStream :=
  env.synth text isSsml

/-- Mirrors `SpeechMixer::speak_content` (lib.rs lines 214-221): synthesize,
then on success hand the stream to the player via `SetSource` (playback starts
automatically, moving the player to `env.postSetSource`); on synthesis failure
propagate the error with no source change. -/
def SpeechMixer.speak_content (env : Env) (st : SpeechMixerState)
    (text : String) (isSsml : Bool) : Outcome :=
  match SpeechMixer.generate_speech_stream env text isSsml with
  | .err e => ⟨.err e, st, [.synthesize text isSsml]⟩
  | .ok stream =>
      ⟨.ok (), { st with playerState := env.postSetSource },
        [.synthesize text isSsml, .setSource (.fromStream stream)]⟩

/-- Recursion engine for the mutual pair `process_queue` /
`process_speech_element` (lib.rs lines 240-266), phrased structurally on the
queue: the state of the mixer when an element is being processed has that
element already popped, and only the `Bookmark` arm re-enters the queue loop.
`SpeechMixer.process_queue` and `SpeechMixer.process_speech_element` below are
the source-shaped wrappers, tied to this engine by
`SpeechMixer.process_queue_pop`. -/
def SpeechMixer.processQueueFrom (env : Env) (ps : MediaPlaybackState) :
    List SpeechElement → Outcome
  | [] => ⟨.ok (), ⟨ps, []⟩, [.stateChanged .Ready]⟩
  | element :: rest =>
    match element with
    | .Text text => SpeechMixer.speak_content env ⟨ps, rest⟩ text false
    | .Ssml ssml => SpeechMixer.speak_content env ⟨ps, rest⟩ ssml true
    | .Bookmark bookmark =>
        let o := SpeechMixer.processQueueFrom env ps rest
        { o with events := .bookmarkReached bookmark :: o.events }
    | .Audio filename =>
        match env.getFile filename with
        | .err e => ⟨.err e, ⟨ps, rest⟩, []⟩
        | .ok file =>
            ⟨.ok (), ⟨env.postSetSource, rest⟩,
              [.setSource (.fromStorageFile file)]⟩

/-- Mirrors `SpeechMixer::process_queue` (lib.rs lines 258-266): pop one
element; if the queue is empty, notify the sink of `Ready` and return `Ok`. -/
def SpeechMixer.process_queue (env : Env) (st : SpeechMixerState) : Outcome :=
  SpeechMixer.processQueueFrom env st.playerState st.speech_queue

/-- Mirrors `SpeechMixer::process_speech_element` (lib.rs lines 240-256),
taking the mixer state with the element already popped: Text/Ssml go through
`speak_content`; a Bookmark notifies `on_bookmark_reached` and then re-enters
`process_queue` on the same call stack; Audio resolves the storage file and
hands it to the player. -/
def SpeechMixer.process_speech_element (env : Env) (st : SpeechMixerState)
    (element : SpeechElement) : Outcome :=
  match element with
  | .Text text => SpeechMixer.speak_content env st text false
  | .Ssml ssml => SpeechMixer.speak_content env st ssml true
  | .Bookmark bookmark =>
      let o := SpeechMixer.process_queue env st
      { o with events := .bookmarkReached bookmark :: o.events }
  | .Audio filename =>
      match env.getFile filename with
      | .err e => ⟨.err e, st, []⟩
      | .ok file =>
          ⟨.ok (), { st with playerState := env.postSetSource },
            [.setSource (.fromStorageFile file)]⟩

/-- Mirrors `SpeechMixer::speak` (lib.rs lines 268-282): push every element of
the utterance, then read the state from the player; only when it is `Ready`,
pop one element and process it (a `None` pop returns `Ok` silently); when the
player is Busy or Paused, return `Ok` having only enqueued. -/
def SpeechMixer.speak (env : Env) (st : SpeechMixerState)
    (utterance : List SpeechElement) : Outcome :=
  let pushed : SpeechMixerState :=
    { st with speech_queue := st.speech_queue ++ utterance }
  match SpeechMixer.get_state pushed with
  | .Ready =>
      match pushed.speech_queue with
      | element :: rest =>
          SpeechMixer.process_speech_element env
            { pushed with speech_queue := rest } element
      | [] => ⟨.ok (), pushed, []⟩
  | _ => ⟨.ok (), pushed, []⟩

/-- Mirrors `Neosynth::pause` (lib.rs lines 456-458): delegate to
`MediaPlayer::Pause`, after which the player session is `Paused`. -/
def Neosynth.pause (st : SpeechMixerState) : Outcome :=
  ⟨.ok (), { st with playerState := .Paused }, [.playerPause]⟩

/-- Mirrors the element-discarding loop in `Neosynth::stop` (lib.rs lines
469-473): pop until the queue reports empty, dropping every element. -/
def Neosynth.drainLoop : List SpeechElement → List SpeechElement
  | [] => []
  | _ :: rest => Neosynth.drainLoop rest

/-- Mirrors `Neosynth::stop` (lib.rs lines 466-480): pause the player, drop
every queued element, substitute a fresh empty in-memory stream as the source,
then call `process_queue` once and return its result. -/
def Neosynth.stop (env : Env) (st : SpeechMixerState) : Outcome :=
  let afterPause := Neosynth.pause st
  let drained : SpeechMixerState :=
    { afterPause.state with
        speech_queue := Neosynth.drainLoop afterPause.state.speech_queue }
  let afterSource : SpeechMixerState :=
    { drained with playerState := env.postSetEmpty }
  let o := SpeechMixer.process_queue env afterSource
  { o with
      events := afterPause.events ++
        .queueDrained :: .setSource (.fromStream .inMemoryEmpty) :: o.events }

/-- Mirrors the `MediaEnded` handler registered in
`Neosynth::register_player_events` (lib.rs lines 316-321): call
`process_queue` and discard its result with `.ok()`, so the handler itself
always returns successfully to the event source. -/
def Neosynth.media_ended_handler (env : Env) (st : SpeechMixerState) :
    Outcome :=
  let o := SpeechMixer.process_queue env st
  { o with result := .ok () }

/-- Mirrors the `MediaFailed` handler registered in
`Neosynth::register_player_events` (lib.rs lines 322-329), identical in body
to the `MediaEnded` one. -/
def Neosynth.media_failed_handler (env : Env) (st : SpeechMixerState) :
    Outcome :=
  let o := SpeechMixer.process_queue env st
  { o with result := .ok () }

/-- Mirrors the data of `struct VoiceInfo` (lib.rs lines 126-136); the opaque
`VoiceInformation` engine handle is identified with this descriptor. -/
structure VoiceInfo where
  id : String
  language : String
  name : String
deriving DecidableEq

/-- Mutable options of the underlying `SpeechSynthesizer`: the selected voice
(lib.rs line 419) and the raw `SpeakingRate` option (lib.rs lines 393, 404). -/
structure SynthOptions where
  voice : VoiceInfo
  speakingRate : ℚ
deriving DecidableEq

/-- Mirrors `Neosynth::get_voice` (lib.rs lines 414-416). -/
def Neosynth.get_voice (opts : SynthOptions) : VoiceInfo :=
  opts.voice

/-- Mirrors `Neosynth::set_voice` (lib.rs lines 419-424): hand the voice's
engine handle to the synthesizer. -/
def Neosynth.set_voice (opts : SynthOptions) (voice : VoiceInfo) :
    NeosynthResult Unit × SynthOptions :=
  (.ok (), { opts with voice := voice })

/-- Mirrors `Neosynth::set_voice_str` (lib.rs lines 432-438): look the id up
in the enumerated catalog (`get_voices`, here a parameter since the catalog is
an external query); on a hit delegate to `set_voice`, otherwise fail with the
operation error and leave the options untouched. -/
def Neosynth.set_voice_str (voices : List VoiceInfo) (opts : SynthOptions)
    (id : String) : NeosynthResult Unit × SynthOptions :=
  match voices.find? (fun v => v.id == id) with
  | some v => Neosynth.set_voice opts v
  | none => (.err (.OperationError "Invalid voice token given"), opts)

/-- Mirrors `Neosynth::get_rate` (lib.rs lines 389-395): the sentinel `-1.0`
when the prosody capability is absent, otherwise the synthesizer's
`SpeakingRate` divided by `0.06`.  The `f64` arithmetic of the source is
modelled exactly over `ℚ`. -/
def Neosynth.get_rate (prosodySupported : Bool) (opts : SynthOptions) : ℚ :=
  if !prosodySupported then -1 else opts.speakingRate / 0.06

/-- Mirrors `Neosynth::set_rate` (lib.rs lines 398-411): when the prosody
capability is present store `value * 0.06` as the `SpeakingRate`, otherwise
fail with the capability operation error, leaving the options untouched. -/
def Neosynth.set_rate (prosodySupported : Bool) (opts : SynthOptions)
    (value : ℚ) : NeosynthResult Unit × SynthOptions :=
  if prosodySupported then
    (.ok (), { opts with speakingRate := value * 0.06 })
  else
    (.err (.OperationError
      "The current version of OneCore synthesizer does not support the prosody option"),
     opts)

/-- Mirrors `struct SpeechUtterance` (lib.rs lines 84-88). -/
structure SpeechUtterance where
  content : List SpeechElement
deriving DecidableEq

/-- Mirrors `SpeechUtterance::add_text` (lib.rs lines 105-107). -/
def SpeechUtterance.add_text (u : SpeechUtterance) (text : String) :
    SpeechUtterance :=
  { u with content := u.content ++ [.Text text] }

/-- Mirrors `SpeechUtterance::add_ssml` (lib.rs lines 109-111). -/
def SpeechUtterance.add_ssml (u : SpeechUtterance) (ssml : String) :
    SpeechUtterance :=
  { u with content := u.content ++ [.Ssml ssml] }

/-- Mirrors `SpeechUtterance::add_bookmark` (lib.rs lines 113-115). -/
def SpeechUtterance.add_bookmark (u : SpeechUtterance) (bookmark : String) :
    SpeechUtterance :=
  { u with content := u.content ++ [.Bookmark bookmark] }

/-- Mirrors `SpeechUtterance::add_audio` (lib.rs lines 117-119). -/
def SpeechUtterance.add_audio (u : SpeechUtterance) (audio_path : String) :
    SpeechUtterance :=
  { u with content := u.content ++ [.Audio audio_path] }

/-- Mirrors `SpeechUtterance::add_utterance` (lib.rs lines 121-123):
`Vec::append` moves the other utterance's whole content to the end of `u`,
leaving the other utterance empty.  The result pairs the two utterances after
the call. -/
def SpeechUtterance.add_utterance (u other : SpeechUtterance) :
    SpeechUtterance × SpeechUtterance :=
  ({ u with content := u.content ++ other.content },
   { other with content := [] })

/-- Concrete environment used by witnesses and counterexamples: synthesis of
the text `"a"` fails with a runtime error, everything else succeeds; file
lookups succeed; a freshly set speech source leaves the player `Playing`; the
empty source substituted by `stop` leaves it in the `None` state. -/
def env0 : Env where
  synth := fun text _ =>
    if text = "a" then .err (.RuntimeError "synthesis failed" 1)
    else .ok (.synthesized text)
  getFile := fun p => .ok ⟨p⟩
  postSetSource := .Playing
  postSetEmpty := .None

/-- Concrete synthesizer options used by witnesses. -/
def opts0 : SynthOptions :=
  ⟨⟨"v1", "en-US", "Voice One"⟩, 1⟩

/-- Popping view of `process_queue`: it performs exactly the source's shape —
pop one element and delegate to `process_speech_element` on the remaining
queue, or report `Ready` on an empty queue. -/
theorem SpeechMixer.process_queue_pop (env : Env) (st : SpeechMixerState) :
    SpeechMixer.process_queue env st =
      match st.speech_queue with
      | [] => ⟨.ok (), st, [.stateChanged .Ready]⟩
      | element :: rest =>
          SpeechMixer.process_speech_element env
            { st with speech_queue := rest } element := by
  obtain ⟨ps, q⟩ := st
  cases q with
  | nil => rfl
  | cons e rest => cases e <;> rfl

/-- The discarding loop of `stop` leaves the queue empty whatever it held. -/
theorem Neosynth.drainLoop_eq_nil (q : List SpeechElement) :
    Neosynth.drainLoop q = [] := by
  induction q with
  | nil => rfl
  | cons e rest ih => simpa [Neosynth.drainLoop] using ih

/-- Closed form of `stop`: it returns `Ok`, leaves the player at the state the
empty source produces with an empty queue, and performs pause, drain, empty
`SetSource` and the single `Ready`-reporting dispatch, in that order. -/
theorem Neosynth.stop_eq (env : Env) (st : SpeechMixerState) :
    Neosynth.stop env st =
      ⟨.ok (), ⟨env.postSetEmpty, []⟩,
        [.playerPause, .queueDrained, .setSource (.fromStream .inMemoryEmpty),
         .stateChanged .Ready]⟩ := by
  obtain ⟨ps, q⟩ := st
  simp [Neosynth.stop, Neosynth.pause, Neosynth.drainLoop_eq_nil,
    SpeechMixer.process_queue, SpeechMixer.processQueueFrom]

/-- C1 counterexample: with the queue holding `Text "a"` followed by
`Text "b"` and synthesis of `"a"` failing, the notification-triggered drain
step stops at the failed element — `Text "b"` stays queued, no synthesis of
`"b"` is attempted and no `Ready` is reported, contradicting "the drain loop
proceeds to the next element or to Ready". -/
theorem synthesis_failure_stops_drain_cex :
    (Neosynth.media_ended_handler env0
        ⟨.None, [.Text "a", .Text "b"]⟩).state.speech_queue = [.Text "b"] ∧
    (Neosynth.media_ended_handler env0
        ⟨.None, [.Text "a", .Text "b"]⟩).events = [.synthesize "a" false] ∧
    Event.synthesize "b" false ∉
      (Neosynth.media_ended_handler env0
          ⟨.None, [.Text "a", .Text "b"]⟩).events ∧
    Event.stateChanged .Ready ∉
      (Neosynth.media_ended_handler env0
          ⟨.None, [.Text "a", .Text "b"]⟩).events := by
  refine ⟨?_, ?_, ?_, ?_⟩ <;> decide

/-- C1 (amended): when processing the popped `Text` (or `Ssml`) element fails
in synthesis during a notification-triggered drain step, the error is
swallowed by the handler — it is not fatal to the Mixer and the handler
returns `Ok` — and the failed element is dropped, but the drain stops there:
the remaining elements stay queued and neither a further element nor a `Ready`
report is produced in that step. -/
theorem synthesis_failure_swallowed_but_drain_stops (env : Env)
    (st : SpeechMixerState) (t : String) (rest : List SpeechElement)
    (e : NeosynthError) :
    (st.speech_queue = .Text t :: rest → env.synth t false = .err e →
      Neosynth.media_ended_handler env st =
        ⟨.ok (), { st with speech_queue := rest }, [.synthesize t false]⟩) ∧
    (st.speech_queue = .Ssml t :: rest → env.synth t true = .err e →
      Neosynth.media_ended_handler env st =
        ⟨.ok (), { st with speech_queue := rest }, [.synthesize t true]⟩) := by
  obtain ⟨ps, q⟩ := st
  constructor <;> intro hq hs <;>
    · have hq2 : q = _ := hq
      subst hq2
      simp [Neosynth.media_ended_handler, SpeechMixer.process_queue,
        SpeechMixer.processQueueFrom, SpeechMixer.speak_content,
        SpeechMixer.generate_speech_stream, hs]

/-- C1 witness for the amended theorem, at the concrete failing input. -/
theorem synthesis_failure_swallowed_but_drain_stops_witness :
    Neosynth.media_ended_handler env0 ⟨.None, [.Text "a"]⟩ =
      ⟨.ok (), ⟨.None, []⟩, [.synthesize "a" false]⟩ :=
  (synthesis_failure_swallowed_but_drain_stops env0 ⟨.None, [.Text "a"]⟩ "a" []
      (.RuntimeError "synthesis failed" 1)).1 rfl rfl

/-- C2: a dispatch step popping a `Bookmark` first notifies the sink with
`on_bookmark_reached(label)` and then recurses into the dispatcher on the same
call stack, so a `Bookmark` immediately followed by a `Text` element is
dispatched in one logical drain pass — the trace is exactly the bookmark
notification followed by the synthesis and `SetSource` of the text, with no
intervening playback notification. -/
theorem bookmark_then_text_same_drain_pass (env : Env) (st : SpeechMixerState)
    (b t : String) (rest : List SpeechElement) (stream : AudioStream)
    (hq : st.speech_queue = .Bookmark b :: .Text t :: rest)
    (hs : env.synth t false = .ok stream) :
    SpeechMixer.process_queue env st =
      ⟨.ok (), ⟨env.postSetSource, rest⟩,
        [.bookmarkReached b, .synthesize t false,
         .setSource (.fromStream stream)]⟩ := by
  obtain ⟨ps, q⟩ := st
  have hq2 : q = _ := hq
  subst hq2
  simp [SpeechMixer.process_queue, SpeechMixer.processQueueFrom,
    SpeechMixer.speak_content, SpeechMixer.generate_speech_stream, hs]

/-- C2 witness at a concrete queue. -/
theorem bookmark_then_text_same_drain_pass_witness :
    SpeechMixer.process_queue env0 ⟨.None, [.Bookmark "x", .Text "t"]⟩ =
      ⟨.ok (), ⟨.Playing, []⟩,
        [.bookmarkReached "x", .synthesize "t" false,
         .setSource (.fromStream (.synthesized "t"))]⟩ :=
  bookmark_then_text_same_drain_pass env0 ⟨.None, [.Bookmark "x", .Text "t"]⟩
    "x" "t" [] (.synthesized "t") rfl rfl

/-- C3 counterexample: from `Ready` with an empty queue,
`speak [Bookmark "x", Text "t"]` pops and processes two elements, not exactly
one — the bookmark's synchronous recursion pops the following text in the same
call, so the number of elements removed from the queue during the call is 2,
refuting "exactly one element is popped and processed". -/
theorem speak_single_pop_cex :
    SpeechMixer.get_state ⟨.None, []⟩ = .Ready ∧
    (SpeechMixer.speak env0 ⟨.None, []⟩
        [.Bookmark "x", .Text "t"]).state.speech_queue = [] ∧
    (SpeechMixer.speak env0 ⟨.None, []⟩ [.Bookmark "x", .Text "t"]).events =
      [.bookmarkReached "x", .synthesize "t" false,
       .setSource (.fromStream (.synthesized "t"))] ∧
    ((⟨.None, []⟩ : SpeechMixerState).speech_queue.length +
        [SpeechElement.Bookmark "x", SpeechElement.Text "t"].length) -
      (SpeechMixer.speak env0 ⟨.None, []⟩
          [.Bookmark "x", .Text "t"]).state.speech_queue.length ≠ 1 := by
  refine ⟨?_, ?_, ?_, ?_⟩ <;> decide

/-- C3 (amended): `speak(elements)` pushes all elements onto the queue first;
then, if and only if the `SynthState` read from the player is `Ready`, it pops
at most one element directly and processes it via the dispatcher's
element-processing step — which, for a `Bookmark`, recursively continues
draining and may pop further elements; if the state is `Busy` or `Paused`,
`speak` only enqueues and triggers no dispatch, so the queue only grows. -/
theorem speak_enqueue_then_single_direct_pop (env : Env)
    (st : SpeechMixerState) (u : List SpeechElement) :
    (SpeechMixer.get_state st ≠ .Ready →
      SpeechMixer.speak env st u =
        ⟨.ok (), { st with speech_queue := st.speech_queue ++ u }, []⟩) ∧
    (∀ element rest, SpeechMixer.get_state st = .Ready →
      st.speech_queue ++ u = element :: rest →
      SpeechMixer.speak env st u =
        SpeechMixer.process_speech_element env
          { st with speech_queue := rest } element) ∧
    (SpeechMixer.get_state st = .Ready → st.speech_queue ++ u = [] →
      SpeechMixer.speak env st u = ⟨.ok (), { st with speech_queue := [] }, []⟩) := by
  obtain ⟨ps, q⟩ := st
  refine ⟨?_, ?_, ?_⟩
  · intro h
    have hps : SynthState.fromPlaybackState ps ≠ .Ready := h
    simp only [SpeechMixer.speak, SpeechMixer.get_state]
  · intro element rest h hq
    have hps : SynthState.fromPlaybackState ps = .Ready := h
    have hq2 : q ++ u = element :: rest := hq
    simp only [SpeechMixer.speak, SpeechMixer.get_state, hps, hq2]
  · intro h hq
    have hps : SynthState.fromPlaybackState ps = .Ready := h
    have hq2 : q ++ u = [] := hq
    simp only [SpeechMixer.speak, SpeechMixer.get_state, hps, hq2]

/-- C3 witness for the amended theorem: while the player is `Busy` (Playing),
`speak` only enqueues. -/
theorem speak_enqueue_then_single_direct_pop_witness :
    SpeechMixer.speak env0 ⟨.Playing, []⟩ [.Text "t"] =
      ⟨.ok (), ⟨.Playing, [.Text "t"]⟩, []⟩ :=
  (speak_enqueue_then_single_direct_pop env0 ⟨.Playing, []⟩ [.Text "t"]).1
    (by decide)

/-- C4 counterexample: the effect trace of `stop` begins with the player pause
and only then the queue-discarding drain, refuting the claimed order "drain
the queue, ..., then pause playback" — the source pauses first (lib.rs line
467) and drains afterwards (lines 469-473). -/
theorem stop_order_cex :
    (Neosynth.stop env0 ⟨.Playing, [.Text "q"]⟩).events =
      [.playerPause, .queueDrained, .setSource (.fromStream .inMemoryEmpty),
       .stateChanged .Ready] ∧
    (Neosynth.stop env0 ⟨.Playing, [.Text "q"]⟩).events.take 2 ≠
      [.queueDrained, .playerPause] := by
  constructor <;> decide

/-- C4 (amended): `stop()` performs, in this order: pause playback, drain the
queue discarding all pending elements without processing them, substitute an
empty playback source, and finally invoke the dispatcher exactly once, which
finds an empty queue and reports `Ready`. -/
theorem stop_pause_drain_substitute_dispatch (env : Env)
    (st : SpeechMixerState) :
    Neosynth.stop env st =
      ⟨.ok (), ⟨env.postSetEmpty, []⟩,
        [.playerPause, .queueDrained, .setSource (.fromStream .inMemoryEmpty),
         .stateChanged .Ready]⟩ :=
  Neosynth.stop_eq env st

/-- C5: `stop()` is idempotent — under the spec's reading of the substituted
empty source as returning the player to a `Ready`-projecting state, each of
two consecutive calls returns `Ok`, leaves the element queue empty, leaves
`get_state` at `Ready`, and reports `Ready` through the sink. -/
theorem stop_idempotent_ready_empty (env : Env) (st : SpeechMixerState)
    (h : SynthState.fromPlaybackState env.postSetEmpty = .Ready) :
    (Neosynth.stop env st).result = .ok () ∧
    (Neosynth.stop env st).state.speech_queue = [] ∧
    SpeechMixer.get_state (Neosynth.stop env st).state = .Ready ∧
    Event.stateChanged .Ready ∈ (Neosynth.stop env st).events ∧
    (Neosynth.stop env (Neosynth.stop env st).state).result = .ok () ∧
    (Neosynth.stop env (Neosynth.stop env st).state).state.speech_queue = [] ∧
    SpeechMixer.get_state
        (Neosynth.stop env (Neosynth.stop env st).state).state = .Ready ∧
    Event.stateChanged .Ready ∈
      (Neosynth.stop env (Neosynth.stop env st).state).events := by
  simp [Neosynth.stop_eq, SpeechMixer.get_state, h]

/-- C5 witness at a concrete busy state with a pending element. -/
theorem stop_idempotent_ready_empty_witness :
    SynthState.fromPlaybackState env0.postSetEmpty = .Ready ∧
    ((Neosynth.stop env0 ⟨.Playing, [.Text "q"]⟩).result = .ok () ∧
     (Neosynth.stop env0 ⟨.Playing, [.Text "q"]⟩).state.speech_queue = [] ∧
     SpeechMixer.get_state
         (Neosynth.stop env0 ⟨.Playing, [.Text "q"]⟩).state = .Ready ∧
     Event.stateChanged .Ready ∈
       (Neosynth.stop env0 ⟨.Playing, [.Text "q"]⟩).events ∧
     (Neosynth.stop env0
         (Neosynth.stop env0 ⟨.Playing, [.Text "q"]⟩).state).result = .ok () ∧
     (Neosynth.stop env0
         (Neosynth.stop env0
           ⟨.Playing, [.Text "q"]⟩).state).state.speech_queue = [] ∧
     SpeechMixer.get_state
         (Neosynth.stop env0
           (Neosynth.stop env0 ⟨.Playing, [.Text "q"]⟩).state).state = .Ready ∧
     Event.stateChanged .Ready ∈
       (Neosynth.stop env0
         (Neosynth.stop env0 ⟨.Playing, [.Text "q"]⟩).state).events) :=
  ⟨by decide,
   stop_idempotent_ready_empty env0 ⟨.Playing, [.Text "q"]⟩ (by decide)⟩

/-- C6: whenever a dispatch step pops from an empty element queue, it notifies
the event sink with `on_state_changed(Ready)` and returns successfully, with
no other effect and no state change. -/
theorem process_queue_empty_reports_ready (env : Env) (st : SpeechMixerState)
    (h : st.speech_queue = []) :
    SpeechMixer.process_queue env st =
      ⟨.ok (), st, [.stateChanged .Ready]⟩ := by
  obtain ⟨ps, q⟩ := st
  have hq : q = [] := h
  subst hq
  rfl

/-- C6 witness on a concrete empty-queue state. -/
theorem process_queue_empty_reports_ready_witness :
    SpeechMixer.process_queue env0 ⟨.None, []⟩ =
      ⟨.ok (), ⟨.None, []⟩, [.stateChanged .Ready]⟩ :=
  process_queue_empty_reports_ready env0 ⟨.None, []⟩ rfl

/-- C7: for every id not present among the voices returned by the catalog
enumeration, `set_voice_str id` fails with the operation error
"Invalid voice token given" and leaves the currently selected voice (and all
synthesizer options) unaltered. -/
theorem set_voice_str_unknown_id_fails_unchanged (voices : List VoiceInfo)
    (opts : SynthOptions) (id : String) (h : ∀ v ∈ voices, v.id ≠ id) :
    Neosynth.set_voice_str voices opts id =
      (.err (.OperationError "Invalid voice token given"), opts) := by
  have hfind : voices.find? (fun v => v.id == id) = none := by
    rw [List.find?_eq_none]
    intro v hv
    simpa using h v hv
  simp [Neosynth.set_voice_str, hfind]

/-- C7 witness: a one-voice catalog and an id not in it. -/
theorem set_voice_str_unknown_id_fails_unchanged_witness :
    Neosynth.set_voice_str [⟨"v1", "en-US", "Voice One"⟩] opts0 "nope" =
      (.err (.OperationError "Invalid voice token given"), opts0) :=
  set_voice_str_unknown_id_fails_unchanged [⟨"v1", "en-US", "Voice One"⟩]
    opts0 "nope" (by decide)

/-- C8: with the prosody capability present, `set_rate R` followed by
`get_rate` returns exactly `R` (the `f64` arithmetic is modelled exactly over
`ℚ`, so the round trip is within any floating-point tolerance); with the
capability absent, `get_rate` returns the sentinel `-1.0` and `set_rate` fails
with the capability operation error, leaving the options unchanged. -/
theorem rate_roundtrip_and_capability_sentinel (opts : SynthOptions) (R : ℚ) :
    Neosynth.get_rate true (Neosynth.set_rate true opts R).2 = R ∧
    Neosynth.get_rate false opts = -1 ∧
    (Neosynth.set_rate false opts R).1 =
      .err (.OperationError
        "The current version of OneCore synthesizer does not support the prosody option") ∧
    (Neosynth.set_rate false opts R).2 = opts := by
  refine ⟨?_, by simp [Neosynth.get_rate], by simp [Neosynth.set_rate],
    by simp [Neosynth.set_rate]⟩
  have h6 : (0.06 : ℚ) ≠ 0 := by norm_num
  simp [Neosynth.get_rate, Neosynth.set_rate, mul_div_assoc, div_self h6]

/-- C9: calling `speak` with an empty element sequence while the player state
is `Ready` and the queue is empty returns success and fires no event-sink
notification at all — the empty-queue pop inside `speak` returns `Ok`
silently, unlike the empty-queue pop inside the dispatcher. -/
theorem speak_empty_ready_no_notification (env : Env) (st : SpeechMixerState)
    (h1 : SpeechMixer.get_state st = .Ready) (h2 : st.speech_queue = []) :
    SpeechMixer.speak env st [] = ⟨.ok (), st, []⟩ := by
  obtain ⟨ps, q⟩ := st
  have hq : q = [] := h2
  subst hq
  have hps : SynthState.fromPlaybackState ps = .Ready := h1
  simp [SpeechMixer.speak, SpeechMixer.get_state, hps]

/-- C9 witness on the concrete Ready, empty-queue state. -/
theorem speak_empty_ready_no_notification_witness :
    SpeechMixer.speak env0 ⟨.None, []⟩ [] = ⟨.ok (), ⟨.None, []⟩, []⟩ :=
  speak_empty_ready_no_notification env0 ⟨.None, []⟩ rfl rfl

/-- C10: `add_utterance` moves rather than copies — afterwards the receiver's
content is its old content followed by the argument's old content, the
argument's content is empty, and the total number of elements is conserved. -/
theorem add_utterance_moves_content (a b : SpeechUtterance) :
    (SpeechUtterance.add_utterance a b).1.content = a.content ++ b.content ∧
    (SpeechUtterance.add_utterance a b).2.content = [] ∧
    (SpeechUtterance.add_utterance a b).1.content.length +
        (SpeechUtterance.add_utterance a b).2.content.length =
      a.content.length + b.content.length := by
  refine ⟨rfl, rfl, ?_⟩
  simp [SpeechUtterance.add_utterance]
